import Mathlib

/-
Verification of visitor-double-dispatch (src/visitor-double-dispatch.cpp).

The C++ program defines a closed hierarchy of immutable data variants
(StringObject, IntegerObject, FloatObject) under an abstract DataObject,
a visitor base class DataObjectVisitor with one no-op handler per variant
kind, per-variant accept overrides that forward to the matching handler,
a concrete DataRenderer visitor that formats each variant with printf,
a variant source getObjects, and a driver main that dispatches each
object of getObjects through one DataRenderer.

Embedding choices:
- The closed class hierarchy becomes the sum type DataObject; virtual
  dispatch on the dynamic type becomes the match in DataObject.accept.
- A visitor is a record with one handler field per variant kind. C++
  overload resolution on the argument type becomes the field name. A
  handler may mutate the visitor (it is passed by non-const reference)
  and may write output; this is modelled by explicit state passing:
  a handler maps a visitor state and a variant to a new state plus the
  list of lines it printed. The base-class no-op bodies become the
  default field values.
- The C++ float field of FloatObject holds a binary32 value; every
  finite binary32 value is a rational, so the field is modelled as a
  rational carrying the exact stored value.
-/

namespace VisitorDD

/-- StringObject: fields strData and encoding, set at construction. -/
structure StringObject where
  strData : String
  encoding : String
deriving DecidableEq

/-- Accessor getStringData of StringObject. -/
def StringObject.getStringData (o : StringObject) : String := o.strData

/-- Accessor getEncoding of StringObject. -/
def StringObject.getEncoding (o : StringObject) : String := o.encoding

/-- IntegerObject: fields intValue and width, set at construction. -/
structure IntegerObject where
  intValue : Int
  width : Int
deriving DecidableEq

/-- Accessor getIntValue of IntegerObject. -/
def IntegerObject.getIntValue (o : IntegerObject) : Int := o.intValue

/-- Accessor getWidthBits of IntegerObject. -/
def IntegerObject.getWidthBits (o : IntegerObject) : Int := o.width

/-- FloatObject: fields floatValue (a binary32 value, modelled by the
exact rational it denotes) and floatType, set at construction. -/
structure FloatObject where
  floatValue : ℚ
  floatType : String
deriving DecidableEq

/-- Accessor getFloatValue of FloatObject. -/
def FloatObject.getFloatValue (o : FloatObject) : ℚ := o.floatValue

/-- Accessor getFloatType of FloatObject. -/
def FloatObject.getFloatType (o : FloatObject) : String := o.floatType

/-- The closed variant set behind the abstract base class DataObject:
exactly the three concrete kinds of the source. -/
inductive DataObject where
  | stringObj (o : StringObject)
  | integerObj (o : IntegerObject)
  | floatObj (o : FloatObject)
deriving DecidableEq

/-- The three variant kinds, used to name handler entry points and to
record which handler a dispatch invoked. -/
inductive VariantKind where
  | stringKind
  | integerKind
  | floatKind
deriving DecidableEq

/-- The concrete kind of a DataObject. -/
def DataObject.kind : DataObject → VariantKind
  | .stringObj _ => .stringKind
  | .integerObj _ => .integerKind
  | .floatObj _ => .floatKind

/-- The visitor base class DataObjectVisitor. One handler entry point
per variant kind (the C++ overloads of visit, told apart here by field
name). A handler takes the visitor state and a read-only variant and
returns the new visitor state together with the lines it printed. The
default field values are the empty bodies of the base class: they leave
the state unchanged and print nothing. -/
structure DataObjectVisitor (σ : Type) where
  visitString : σ → StringObject → σ × List String := fun s _ => (s, [])
  visitInteger : σ → IntegerObject → σ × List String := fun s _ => (s, [])
  visitFloat : σ → FloatObject → σ × List String := fun s _ => (s, [])

/-- StringObject.accept: the body of the override is
visitor.visit(*this), which resolves to the StringObject handler. -/
def StringObject.accept {σ : Type} (o : StringObject)
    (v : DataObjectVisitor σ) (s : σ) : σ × List String :=
  v.visitString s o

/-- IntegerObject.accept: forwards to the IntegerObject handler. -/
def IntegerObject.accept {σ : Type} (o : IntegerObject)
    (v : DataObjectVisitor σ) (s : σ) : σ × List String :=
  v.visitInteger s o

/-- FloatObject.accept: forwards to the FloatObject handler. -/
def FloatObject.accept {σ : Type} (o : FloatObject)
    (v : DataObjectVisitor σ) (s : σ) : σ × List String :=
  v.visitFloat s o

/-- The virtual call obj->accept(visitor) on the abstract base class:
the dynamic type selects the concrete accept override. -/
def DataObject.accept {σ : Type} (obj : DataObject)
    (v : DataObjectVisitor σ) (s : σ) : σ × List String :=
  match obj with
  | .stringObj o => o.accept v s
  | .integerObj o => o.accept v s
  | .floatObj o => o.accept v s

/-- Observation wrapper: the same visitor, with the state enlarged by a
log that records, in order, which handler entry points were entered.
Each handler of the wrapped visitor runs the original handler once and
appends its own kind to the log. Used to state how many handlers a
dispatch invokes and which. -/
def instrument {σ : Type} (v : DataObjectVisitor σ) :
    DataObjectVisitor (σ × List VariantKind) where
  visitString := fun p o =>
    let r := v.visitString p.1 o
    ((r.1, p.2 ++ [.stringKind]), r.2)
  visitInteger := fun p o =>
    let r := v.visitInteger p.1 o
    ((r.1, p.2 ++ [.integerKind]), r.2)
  visitFloat := fun p o =>
    let r := v.visitFloat p.1 o
    ((r.1, p.2 ++ [.floatKind]), r.2)

/-- The sequence of handler entry points entered when obj is dispatched
through v from state s, starting from an empty log. -/
def dispatchTrace {σ : Type} (obj : DataObject)
    (v : DataObjectVisitor σ) (s : σ) : List VariantKind :=
  (obj.accept (instrument v) (s, [])).1.2

/-- The fields of a variant, as one value: used to state that a
dispatch changes no field. -/
def DataObject.fields :
    DataObject → (String × String) ⊕ (Int × Int) ⊕ (ℚ × String)
  | .stringObj o => .inl (o.strData, o.encoding)
  | .integerObj o => .inr (.inl (o.intValue, o.width))
  | .floatObj o => .inr (.inr (o.floatValue, o.floatType))

/-- Modelled from the spec wording of the frame claim: a visitor whose
handlers could also hand back a replacement variant, so that mutation
of the dispatched variant is representable at all. The C++ protocol
passes the variant by const reference, so no protocol-conforming
handler can produce such a replacement; the embedding of the protocol
into this wider type is DataObjectVisitor.toRaw below. -/
structure RawVisitor (σ : Type) where
  visitString : σ → StringObject → σ × StringObject × List String
  visitInteger : σ → IntegerObject → σ × IntegerObject × List String
  visitFloat : σ → FloatObject → σ × FloatObject × List String

/-- Every Operation Protocol implementation, seen as a RawVisitor: the
const reference of each visit signature means the variant handed back
is the variant handed in. -/
def DataObjectVisitor.toRaw {σ : Type} (v : DataObjectVisitor σ) :
    RawVisitor σ where
  visitString := fun s o => let r := v.visitString s o; (r.1, o, r.2)
  visitInteger := fun s o => let r := v.visitInteger s o; (r.1, o, r.2)
  visitFloat := fun s o => let r := v.visitFloat s o; (r.1, o, r.2)

/-- Dispatch in the wider model: returns also the variant as it stands
after the call. -/
def DataObject.acceptRaw {σ : Type} (obj : DataObject)
    (v : RawVisitor σ) (s : σ) : σ × DataObject × List String :=
  match obj with
  | .stringObj o => let r := v.visitString s o; (r.1, .stringObj r.2.1, r.2.2)
  | .integerObj o => let r := v.visitInteger s o; (r.1, .integerObj r.2.1, r.2.2)
  | .floatObj o => let r := v.visitFloat s o; (r.1, .floatObj r.2.1, r.2.2)

/-- The kind K has no override in v: the handler of v for K is still
the no-op body of the base class. -/
def DataObjectVisitor.noOverride {σ : Type} (v : DataObjectVisitor σ) :
    VariantKind → Prop
  | .stringKind => v.visitString = fun s _ => (s, [])
  | .integerKind => v.visitInteger = fun s _ => (s, [])
  | .floatKind => v.visitFloat = fun s _ => (s, [])

/-- The ideal single handler call: the handler of v matching the kind
of obj, applied directly, once. Dispatch through the accept chain is
proved equal to this. -/
def DataObjectVisitor.handlerResult {σ : Type} (v : DataObjectVisitor σ)
    (s : σ) : DataObject → σ × List String
  | .stringObj o => v.visitString s o
  | .integerObj o => v.visitInteger s o
  | .floatObj o => v.visitFloat s o

/-- The driver loop of main: dispatch each object of the sequence, in
order, through the one visitor, threading the visitor state and
concatenating the printed lines. -/
def renderSeq {σ : Type} (v : DataObjectVisitor σ) (s : σ) :
    List DataObject → σ × List String
  | [] => (s, [])
  | obj :: rest =>
    let r := obj.accept v s
    let r2 := renderSeq v r.1 rest
    (r2.1, r.2 ++ r2.2)

/-- The handler invocation log of a whole driver run over a sequence. -/
def renderTrace {σ : Type} (v : DataObjectVisitor σ) (s : σ)
    (objs : List DataObject) : List VariantKind :=
  (renderSeq (instrument v) (s, []) objs).1.2

/-- Two runs of the same sequence through two operation instances of
the same concrete operation, each instance freshly constructed (so each
starts from the constructed state s, the same for both) and dispatched
independently. -/
def runPair {σ : Type} (v : DataObjectVisitor σ) (s : σ)
    (objs : List DataObject) : (σ × List String) × (σ × List String) :=
  (renderSeq v s objs, renderSeq v s objs)

/-- The decimal digits of k, left-padded with zeros to six digits:
the fractional part of a printf percent-f conversion. -/
def pad6 (k : Nat) : String :=
  let s := toString k
  String.mk (List.replicate (6 - s.length) '0') ++ s

/-- The printf percent-f conversion of a value: fixed-point decimal
with exactly six fractional digits, the value rounded to the nearest
multiple of 10 ^ (-6). -/
def fmtF6 (q : ℚ) : String :=
  let n : ℤ := ⌊q * 1000000 + 1 / 2⌋
  (if n < 0 then "-" else "") ++ toString (n.natAbs / 1000000) ++ "."
    ++ pad6 (n.natAbs % 1000000)

/-- The binary32 value written 3.14f in the source: 3.14 lies in the
binade [2, 4), where the binary32 values are the multiples of
2 ^ (-22) (23 fraction bits at exponent 1), so the stored value is the
multiple of 2 ^ (-22) nearest to 314 / 100. -/
def float3_14 : ℚ := (⌊(314 : ℚ) / 100 * 2 ^ 22 + 1 / 2⌋ : ℚ) / 2 ^ 22

/-- The concrete operation DataRenderer: one handler per kind, each
printing one line with printf using the format strings of the source.
DataRenderer has no data members, so its state is Unit. -/
def DataRenderer : DataObjectVisitor Unit where
  visitString := fun s o =>
    (s, ["String:     \"" ++ o.getStringData ++ "\"  (" ++ o.getEncoding
      ++ ")\n"])
  visitInteger := fun s o =>
    (s, ["Integer:    " ++ toString o.getIntValue ++ "  ("
      ++ toString o.getWidthBits ++ " bits)\n"])
  visitFloat := fun s o =>
    (s, ["Float:      " ++ fmtF6 o.getFloatValue ++ "  ("
      ++ o.getFloatType ++ ")\n"])

/-- The variant source getObjects: a container holding, in order, a
StringObject("Hello", "utf-8"), an IntegerObject(16, 32) and a
FloatObject(3.14f, "ieee-754"). -/
def getObjects : List DataObject :=
  [.stringObj ⟨"Hello", "utf-8"⟩,
   .integerObj ⟨16, 32⟩,
   .floatObj ⟨float3_14, "ieee-754"⟩]

/-- The lines printed by main: every object of getObjects dispatched,
in container order, through one freshly constructed DataRenderer. -/
def mainOutput : List String := (renderSeq DataRenderer () getObjects).2

end VisitorDD

namespace VisitorDD

/-- C1: dispatching any variant through any visitor invokes exactly one
handler entry point, exactly once, and it is the handler matching the
concrete kind of the variant: the invocation log of the dispatch is
exactly the one-element list holding the kind of the variant. -/
theorem dispatch_invokes_exactly_matching_handler
    {σ : Type} (obj : DataObject) (v : DataObjectVisitor σ) (s : σ) :
    dispatchTrace obj v s = [obj.kind] := by
  cases obj <;> rfl

/-- C2: dispatching a variant through any Operation Protocol
implementation leaves the variant, hence every one of its fields,
unchanged: in the model where a handler could hand back a replacement
variant, the variant standing after a dispatch through any
protocol-conforming visitor is the variant dispatched, and its field
tuple is unchanged. -/
theorem dispatch_preserves_variant_fields
    {σ : Type} (obj : DataObject) (v : DataObjectVisitor σ) (s : σ) :
    (obj.acceptRaw v.toRaw s).2.1 = obj ∧
      (obj.acceptRaw v.toRaw s).2.1.fields = obj.fields := by
  cases obj <;> exact ⟨rfl, rfl⟩

/-- C4: if a visitor has no override for the kind of a variant, then
dispatching that variant through it is a no-op: the visitor state is
unchanged and nothing is printed. -/
theorem dispatch_without_override_is_noop
    {σ : Type} (obj : DataObject) (v : DataObjectVisitor σ) (s : σ)
    (h : v.noOverride obj.kind) :
    obj.accept v s = (s, []) := by
  cases obj with
  | stringObj o =>
    simp only [DataObject.accept, StringObject.accept]
    rw [show v.visitString = fun s _ => (s, []) from h]
  | integerObj o =>
    simp only [DataObject.accept, IntegerObject.accept]
    rw [show v.visitInteger = fun s _ => (s, []) from h]
  | floatObj o =>
    simp only [DataObject.accept, FloatObject.accept]
    rw [show v.visitFloat = fun s _ => (s, []) from h]

/-- Witness for C4 at a concrete input: the all-default visitor over
state Nat has no override for the string kind, and dispatching a
concrete StringObject through it from state 0 returns state 0 and no
output. -/
theorem dispatch_without_override_is_noop_witness :
    ({} : DataObjectVisitor Nat).noOverride
        (DataObject.stringObj ⟨"Hello", "utf-8"⟩).kind ∧
      (DataObject.stringObj ⟨"Hello", "utf-8"⟩).accept
        ({} : DataObjectVisitor Nat) 0 = (0, []) :=
  ⟨rfl, dispatch_without_override_is_noop
    (DataObject.stringObj ⟨"Hello", "utf-8"⟩) {} 0 rfl⟩

/-- C5: dispatching one sequence through two independently constructed
instances of the same concrete operation gives both runs the same
result, and each run equals a standalone run: neither outcome depends
on the other run, since no state is shared between the instances. -/
theorem independent_instances_agree
    {σ : Type} (v : DataObjectVisitor σ) (s : σ)
    (objs : List DataObject) :
    (runPair v s objs).1 = (runPair v s objs).2 ∧
      (runPair v s objs).1 = renderSeq v s objs ∧
      (runPair v s objs).2 = renderSeq v s objs :=
  ⟨rfl, rfl, rfl⟩

/-- C6: dispatch is total and terminating and cannot fail: for every
variant and visitor it is exactly one direct application of the
matching handler, returning that handler result, and its invocation
log has length one. Totality and absence of exceptions hold because
accept is a total function of the embedding with no error outcome in
its result type. -/
theorem dispatch_total_single_invocation
    {σ : Type} (obj : DataObject) (v : DataObjectVisitor σ) (s : σ) :
    obj.accept v s = v.handlerResult s obj ∧
      (dispatchTrace obj v s).length = 1 := by
  cases obj <;> exact ⟨rfl, rfl⟩

/-- C7: dispatching the empty sequence through any visitor invokes no
handler, prints nothing, leaves the visitor state unchanged, and the
driver loop returns normally. -/
theorem empty_sequence_no_invocations
    {σ : Type} (v : DataObjectVisitor σ) (s : σ) :
    renderSeq v s [] = (s, []) ∧ renderTrace v s [] = [] :=
  ⟨rfl, rfl⟩

/-- The stored binary32 value of 3.14f, as an explicit rational. -/
theorem float3_14_eq : float3_14 = 13170115 / 4194304 := by
  rw [float3_14]; norm_num

/-- The percent-f rendering of the stored value of 3.14f. -/
theorem fmtF6_float3_14 : fmtF6 float3_14 = "3.140000" := by
  rw [fmtF6, float3_14_eq]
  rw [show ⌊(13170115 : ℚ) / 4194304 * 1000000 + 1 / 2⌋ = 3140000 from by
    norm_num]
  decide

/-- C3: dispatching the three constructed variants through the
formatting operation prints, in order, the string line for
("Hello", "utf-8"), the integer line for (16, 32) and the float line
for (3.14f, "ieee-754"); the numeric value prints as 3.140000 under
the percent-f conversion of the source. -/
theorem main_renders_three_lines_in_order :
    mainOutput =
      ["String:     \"Hello\"  (utf-8)\n",
       "Integer:    16  (32 bits)\n",
       "Float:      3.140000  (ieee-754)\n"] := by
  rw [mainOutput, getObjects]
  simp only [renderSeq, DataObject.accept, StringObject.accept,
    IntegerObject.accept, FloatObject.accept, DataRenderer,
    StringObject.getStringData, StringObject.getEncoding,
    IntegerObject.getIntValue, IntegerObject.getWidthBits,
    FloatObject.getFloatValue, FloatObject.getFloatType, fmtF6_float3_14]
  decide

/-- C8: constructor and accessor round-trip for every variant kind:
each accessor returns exactly the construction argument backing it. -/
theorem constructor_accessor_round_trip
    (s e : String) (i w : Int) (f : ℚ) (t : String) :
    (StringObject.mk s e).getStringData = s ∧
      (StringObject.mk s e).getEncoding = e ∧
      (IntegerObject.mk i w).getIntValue = i ∧
      (IntegerObject.mk i w).getWidthBits = w ∧
      (FloatObject.mk f t).getFloatValue = f ∧
      (FloatObject.mk f t).getFloatType = t :=
  ⟨rfl, rfl, rfl, rfl, rfl, rfl⟩

/-- C9: getObjects is the constant three-element sequence holding, in
order, StringObject("Hello", "utf-8"), IntegerObject(16, 32) and
FloatObject with the binary32 value of 3.14 and type "ieee-754"; as a
constant it returns the same sequence on every call. -/
theorem getObjects_is_fixed_three_sequence :
    getObjects =
      [.stringObj ⟨"Hello", "utf-8"⟩,
       .integerObj ⟨16, 32⟩,
       .floatObj ⟨13170115 / 4194304, "ieee-754"⟩] := by
  rw [getObjects, float3_14_eq]

end VisitorDD
